import Mathlib

/-!
# The CouchDB design document `_design/Answer`

A shallow embedding of `src/main/resources/couchdb/Answer.design.js`: the eight
views of the design document, each with its JavaScript map function and its
optional built-in reduce.

* `Json` is the data stored in the database; `JSVal` is a value as it occurs
  while a map function runs (a property read may be `undefined`, and the
  function builds array and object literals from property reads).
* A map function is a function from a document to the list of emissions it
  makes, in call order.
* Numbers are carried as integers: no map function computes with them, they are
  only copied from the document into a key.
-/

namespace AnswerDesign

/-! ## JSON data and JavaScript values -/

/-- A JSON value, the content of a stored document and of a view row. -/
inductive Json where
  | null : Json
  | bool (b : Bool) : Json
  | num (n : Int) : Json
  | str (s : String) : Json
  | arr (xs : List Json) : Json
  | obj (props : List (String × Json)) : Json

namespace Json

mutual
/-- Decision procedure for equality of JSON values. -/
def decEq : (a b : Json) → Decidable (a = b)
  | null, null => isTrue rfl
  | bool a, bool b => decidable_of_iff (a = b) (by simp)
  | num a, num b => decidable_of_iff (a = b) (by simp)
  | str a, str b => decidable_of_iff (a = b) (by simp)
  | arr a, arr b => @decidable_of_iff _ (a = b) (by simp) (decEqList a b)
  | obj a, obj b => @decidable_of_iff _ (a = b) (by simp) (decEqProps a b)
  | null, bool _ | null, num _ | null, str _ | null, arr _ | null, obj _ => isFalse (by simp)
  | bool _, null | bool _, num _ | bool _, str _ | bool _, arr _ | bool _, obj _ => isFalse (by simp)
  | num _, null | num _, bool _ | num _, str _ | num _, arr _ | num _, obj _ => isFalse (by simp)
  | str _, null | str _, bool _ | str _, num _ | str _, arr _ | str _, obj _ => isFalse (by simp)
  | arr _, null | arr _, bool _ | arr _, num _ | arr _, str _ | arr _, obj _ => isFalse (by simp)
  | obj _, null | obj _, bool _ | obj _, num _ | obj _, str _ | obj _, arr _ => isFalse (by simp)
/-- Decision procedure for equality of lists of JSON values. -/
def decEqList : (a b : List Json) → Decidable (a = b)
  | [], [] => isTrue rfl
  | [], _ :: _ => isFalse (by simp)
  | _ :: _, [] => isFalse (by simp)
  | x :: xs, y :: ys =>
    @decidable_of_iff _ (x = y ∧ xs = ys) (by simp) (@instDecidableAnd _ _ (decEq x y) (decEqList xs ys))
/-- Decision procedure for equality of property lists. -/
def decEqProps : (a b : List (String × Json)) → Decidable (a = b)
  | [], [] => isTrue rfl
  | [], _ :: _ => isFalse (by simp)
  | _ :: _, [] => isFalse (by simp)
  | (k, x) :: xs, (l, y) :: ys =>
    @decidable_of_iff _ (k = l ∧ x = y ∧ xs = ys) (by simp [and_assoc])
      (@instDecidableAnd _ _ _ (@instDecidableAnd _ _ (decEq x y) (decEqProps xs ys)))
end

instance : DecidableEq Json := decEq

end Json

/-- A JavaScript value inside a map function: `undefined`, a JSON value read
from the document, or an array or object literal built by the function. -/
inductive JSVal where
  | undefined : JSVal
  | json (j : Json) : JSVal
  | arr (xs : List JSVal) : JSVal
  | obj (props : List (String × JSVal)) : JSVal

namespace JSVal

mutual
/-- Modelled from the spec: the JSON form in which the view server stores what
a map function hands to `emit` (the server is not part of the design document).
`undefined` is written as `null`, also as an element of an array, and a
property whose value is `undefined` is left out of its object. -/
def toJSON : JSVal → Json
  | undefined => Json.null
  | json j => j
  | arr xs => Json.arr (toJSONList xs)
  | obj props => Json.obj (toJSONProps props)
/-- The elements of an array literal, each in JSON form. -/
def toJSONList : List JSVal → List Json
  | [] => []
  | x :: xs => toJSON x :: toJSONList xs
/-- The properties of an object literal in JSON form. -/
def toJSONProps : List (String × JSVal) → List (String × Json)
  | [] => []
  | (_, undefined) :: ps => toJSONProps ps
  | (k, json j) :: ps => (k, j) :: toJSONProps ps
  | (k, arr xs) :: ps => (k, Json.arr (toJSONList xs)) :: toJSONProps ps
  | (k, obj qs) :: ps => (k, Json.obj (toJSONProps qs)) :: toJSONProps ps
end

/-- The comparison `v === "s"` of a value with a string literal: true exactly
when `v` is that string. -/
def strictEqString (v : JSVal) (s : String) : Bool :=
  match v with
  | json (Json.str t) => t == s
  | _ => false

end JSVal

/-! ## Documents, emissions and views -/

/-- A document: the properties of a JSON object. -/
structure Doc where
  props : List (String × Json)
  deriving DecidableEq

/-- The property read `doc.field`: the value stored under the name, and
`undefined` when the document has no such property. -/
def Doc.get (doc : Doc) (field : String) : JSVal :=
  match doc.props.lookup field with
  | some j => JSVal.json j
  | none => JSVal.undefined

/-- One `(key, value)` pair produced by a map function. -/
structure Emission where
  key : Json
  value : Json
  deriving DecidableEq

/-- Modelled from the spec: `emit(key, value)` is the view server's built-in, it
is not declared in the design document. A call contributes one emission, whose
key and value are stored in JSON form. -/
def emit (key value : JSVal) : List Emission :=
  [⟨key.toJSON, value.toJSON⟩]

/-- A view of the design document: its `map` and `reduce` properties, each
present or not. -/
structure View where
  map : Option (Doc → List Emission)
  reduce : Option String

/-- The emissions of a view for a document: what its map function emits; a view
without a map function emits nothing. -/
def View.emissions (v : View) (doc : Doc) : List Emission :=
  match v.map with
  | some f => f doc
  | none => []

/-- A design document. -/
structure DesignDoc where
  _id : String
  language : String
  views : List (String × View)

namespace designDoc.views

/-- View `by_id`. -/
def by_id : View where
  map := some fun doc =>
    if (doc.get "type").strictEqString "Answer" then
      emit (doc.get "_id") (JSVal.obj [("_rev", doc.get "_rev")])
    else []
  reduce := some "_count"

/-- View `by_contentid`. -/
def by_contentid : View where
  map := some fun doc =>
    if (doc.get "type").strictEqString "Answer" then
      emit (doc.get "contentId") (JSVal.obj [("_rev", doc.get "_rev")])
    else []
  reduce := some "_count"

/-- View `by_contentid_round_body_subject`. -/
def by_contentid_round_body_subject : View where
  map := some fun doc =>
    if (doc.get "type").strictEqString "Answer" then
      emit (JSVal.arr [doc.get "contentId", doc.get "round", doc.get "abstention",
          doc.get "body", doc.get "subject", doc.get "successfulFreeTextAnswer"])
        (JSVal.obj [("_rev", doc.get "_rev")])
    else []
  reduce := some "_count"

/-- View `by_contentid_round_selectedchoiceindexes`. -/
def by_contentid_round_selectedchoiceindexes : View where
  map := some fun doc =>
    if (doc.get "type").strictEqString "Answer" then
      emit (JSVal.arr [doc.get "contentId", doc.get "round", doc.get "selectedChoiceIndexes"])
        (JSVal.obj [("_rev", doc.get "_rev")])
    else []
  reduce := some "_count"

/-- View `by_contentid_creationtimestamp`. -/
def by_contentid_creationtimestamp : View where
  map := some fun doc =>
    if (doc.get "type").strictEqString "Answer" then
      emit (JSVal.arr [doc.get "contentId", doc.get "creationTimestamp"])
        (JSVal.obj [("_rev", doc.get "_rev")])
    else []
  reduce := none

/-- View `by_contentid_creatorid_round`. -/
def by_contentid_creatorid_round : View where
  map := some fun doc =>
    if (doc.get "type").strictEqString "Answer" then
      emit (JSVal.arr [doc.get "contentId", doc.get "creatorId", doc.get "round"])
        (JSVal.obj [("_rev", doc.get "_rev")])
    else []
  reduce := none

/-- View `by_roomid`. -/
def by_roomid : View where
  map := some fun doc =>
    if (doc.get "type").strictEqString "Answer" then
      emit (doc.get "roomId") (JSVal.obj [("_rev", doc.get "_rev")])
    else []
  reduce := some "_count"

/-- View `by_creatorid_roomid`. -/
def by_creatorid_roomid : View where
  map := some fun doc =>
    if (doc.get "type").strictEqString "Answer" then
      emit (JSVal.arr [doc.get "creatorId", doc.get "roomId"])
        (JSVal.obj [("_rev", doc.get "_rev")])
    else []
  reduce := none

end designDoc.views

/-- The design document `_design/Answer`. -/
def designDoc : DesignDoc where
  _id := "_design/Answer"
  language := "javascript"
  views :=
    [("by_id", designDoc.views.by_id),
     ("by_contentid", designDoc.views.by_contentid),
     ("by_contentid_round_body_subject", designDoc.views.by_contentid_round_body_subject),
     ("by_contentid_round_selectedchoiceindexes",
        designDoc.views.by_contentid_round_selectedchoiceindexes),
     ("by_contentid_creationtimestamp", designDoc.views.by_contentid_creationtimestamp),
     ("by_contentid_creatorid_round", designDoc.views.by_contentid_creatorid_round),
     ("by_roomid", designDoc.views.by_roomid),
     ("by_creatorid_roomid", designDoc.views.by_creatorid_roomid)]

/-- The view declared under a name, if any. -/
def DesignDoc.view (dd : DesignDoc) (name : String) : Option View :=
  dd.views.lookup name

/-- The top-level components of a key: the elements of an array key, and the
key itself for a key that is not an array. -/
def keyComponents : Json → List Json
  | Json.arr xs => xs
  | k => [k]

/-- Whether the document's `type` property is the string `t`. -/
def Doc.hasType (doc : Doc) (t : String) : Bool :=
  doc.props.lookup "type" == some (Json.str t)

/-- Whether the document's property `field` is null or absent. -/
def Doc.nullish (doc : Doc) (field : String) : Bool :=
  doc.props.lookup field == none || doc.props.lookup field == some Json.null

/-- Whether the document's property `field` holds an array. -/
def Doc.isArrayField (doc : Doc) (field : String) : Bool :=
  match doc.props.lookup field with
  | some (Json.arr _) => true
  | _ => false

/-! ## The document collection and the rows of a view -/

/-- Modelled from the spec: the id under which the store files a document, its
`_id` in JSON form. -/
def Doc.id (doc : Doc) : Json :=
  (doc.get "_id").toJSON

/-- Writing a property of an object: the first property of that name is
overwritten where it stands, and the property is added at the end when there is
none. -/
def setProp : List (String × Json) → String → Json → List (String × Json)
  | [], field, v => [(field, v)]
  | (k, w) :: ps, field, v =>
    if k = field then (field, v) :: ps else (k, w) :: setProp ps field v

/-- Modelled from the spec: the store's update of one field of a document. -/
def Doc.set (doc : Doc) (field : String) (v : Json) : Doc :=
  ⟨setProp doc.props field v⟩

/-- Modelled from the spec: one entry of the document collection, the content
of the document's latest revision and whether the document is deleted. -/
structure StoreEntry where
  deleted : Bool
  content : Doc
  deriving DecidableEq

/-- Modelled from the spec: the documents currently not deleted. -/
def liveDocs (store : List StoreEntry) : List Doc :=
  (store.filter fun e => !e.deleted).map StoreEntry.content

/-- Modelled from the spec: a view row, one emission together with the id of
the document it comes from. -/
structure Row where
  id : Json
  key : Json
  value : Json
  deriving DecidableEq

/-- Modelled from the spec: the rows of a view over a list of documents, the
emissions of the view's map function over each document in turn. -/
def viewRows (v : View) (docs : List Doc) : List Row :=
  docs.flatMap fun d => (v.emissions d).map fun e => ⟨d.id, e.key, e.value⟩

/-- Modelled from the spec: the `_count` of the rows under one key, the number
of rows whose key is `k`. -/
def countKey (rows : List Row) (k : Json) : Nat :=
  rows.countP fun r => r.key = k

/-- Modelled from the spec: the key under which a row is grouped at a group
level: the first `level` components of an array key, the whole key when it is
not an array, and a single `null` group at level 0. -/
def groupKey (level : Nat) (key : Json) : Json :=
  if level = 0 then Json.null
  else match key with
    | Json.arr xs => Json.arr (xs.take level)
    | k => k

/-- Modelled from the spec: the `_count` reduce at a group level, one pair
(group key, number of rows in the group) for each distinct group key. -/
def reduceCount (level : Nat) (rows : List Row) : List (Json × Nat) :=
  (rows.map fun r => groupKey level r.key).dedup.map fun g =>
    (g, rows.countP fun r => groupKey level r.key = g)

/-! ## The map functions as steps of the view server

The view server runs a map function inside a JavaScript context that has
mutable state: the list of emissions collected so far and the global
variables. Here every map function is written a second time, as a step on that
state, so that what it reads and what it changes can be stated. -/

/-- The state of the JavaScript context in which map functions run: the
emissions collected so far and the global variables. -/
structure ServerState where
  results : List Emission
  globals : List (String × Json)
  deriving DecidableEq

/-- A map function as the server runs it: given the document, a step on the
state of the context. -/
abbrev MapStep := Doc → ServerState → ServerState

/-- Modelled from the spec: the call `emit(key, value)` as a step of the server,
which adds the emission at the end of the collected ones and touches no global
variable. -/
def emitStep (key value : JSVal) (s : ServerState) : ServerState :=
  ⟨s.results ++ emit key value, s.globals⟩

namespace designDoc.steps

/-- The map function of view `by_id`, as a step. -/
def by_id : MapStep := fun doc s =>
  if (doc.get "type").strictEqString "Answer" then
    emitStep (doc.get "_id") (JSVal.obj [("_rev", doc.get "_rev")]) s
  else s

/-- The map function of view `by_contentid`, as a step. -/
def by_contentid : MapStep := fun doc s =>
  if (doc.get "type").strictEqString "Answer" then
    emitStep (doc.get "contentId") (JSVal.obj [("_rev", doc.get "_rev")]) s
  else s

/-- The map function of view `by_contentid_round_body_subject`, as a step. -/
def by_contentid_round_body_subject : MapStep := fun doc s =>
  if (doc.get "type").strictEqString "Answer" then
    emitStep (JSVal.arr [doc.get "contentId", doc.get "round", doc.get "abstention",
        doc.get "body", doc.get "subject", doc.get "successfulFreeTextAnswer"])
      (JSVal.obj [("_rev", doc.get "_rev")]) s
  else s

/-- The map function of view `by_contentid_round_selectedchoiceindexes`, as a
step. -/
def by_contentid_round_selectedchoiceindexes : MapStep := fun doc s =>
  if (doc.get "type").strictEqString "Answer" then
    emitStep (JSVal.arr [doc.get "contentId", doc.get "round", doc.get "selectedChoiceIndexes"])
      (JSVal.obj [("_rev", doc.get "_rev")]) s
  else s

/-- The map function of view `by_contentid_creationtimestamp`, as a step. -/
def by_contentid_creationtimestamp : MapStep := fun doc s =>
  if (doc.get "type").strictEqString "Answer" then
    emitStep (JSVal.arr [doc.get "contentId", doc.get "creationTimestamp"])
      (JSVal.obj [("_rev", doc.get "_rev")]) s
  else s

/-- The map function of view `by_contentid_creatorid_round`, as a step. -/
def by_contentid_creatorid_round : MapStep := fun doc s =>
  if (doc.get "type").strictEqString "Answer" then
    emitStep (JSVal.arr [doc.get "contentId", doc.get "creatorId", doc.get "round"])
      (JSVal.obj [("_rev", doc.get "_rev")]) s
  else s

/-- The map function of view `by_roomid`, as a step. -/
def by_roomid : MapStep := fun doc s =>
  if (doc.get "type").strictEqString "Answer" then
    emitStep (doc.get "roomId") (JSVal.obj [("_rev", doc.get "_rev")]) s
  else s

/-- The map function of view `by_creatorid_roomid`, as a step. -/
def by_creatorid_roomid : MapStep := fun doc s =>
  if (doc.get "type").strictEqString "Answer" then
    emitStep (JSVal.arr [doc.get "creatorId", doc.get "roomId"])
      (JSVal.obj [("_rev", doc.get "_rev")]) s
  else s

end designDoc.steps

/-- The eight map functions of the design document as steps, by view name. -/
def designDoc.mapSteps : List (String × MapStep) :=
  [("by_id", designDoc.steps.by_id),
   ("by_contentid", designDoc.steps.by_contentid),
   ("by_contentid_round_body_subject", designDoc.steps.by_contentid_round_body_subject),
   ("by_contentid_round_selectedchoiceindexes",
      designDoc.steps.by_contentid_round_selectedchoiceindexes),
   ("by_contentid_creationtimestamp", designDoc.steps.by_contentid_creationtimestamp),
   ("by_contentid_creatorid_round", designDoc.steps.by_contentid_creatorid_round),
   ("by_roomid", designDoc.steps.by_roomid),
   ("by_creatorid_roomid", designDoc.steps.by_creatorid_roomid)]

/-- Modelled from the spec: the server evaluating one map function on a
sequence of documents, one after the other, in the same context. -/
def runMaps (step : MapStep) (docs : List Doc) (s : ServerState) : ServerState :=
  docs.foldl (fun st d => step d st) s

/-- A step that reads a global variable and counts its calls in another one,
for comparison: it is a map step, and it is not pure. -/
def impureStep : MapStep := fun doc s =>
  ⟨s.results ++ [⟨(doc.get "_id").toJSON, Json.num s.results.length⟩],
   ("calls", Json.num (s.results.length + 1)) :: s.globals⟩

/-- The state of a fresh context: nothing emitted, no global variable. -/
def freshState : ServerState :=
  ⟨[], []⟩

/-- A state of the context after earlier evaluations. -/
def usedState : ServerState :=
  ⟨[⟨Json.str "earlier", Json.null⟩], [("counter", Json.num 7)]⟩

/-! ## Sample documents -/

/-- An Answer document with string ids and some of the key fields. -/
def sampleAnswer : Doc :=
  ⟨[("_id", Json.str "a1"), ("_rev", Json.str "1-abc"), ("type", Json.str "Answer"),
    ("contentId", Json.str "Q1"), ("creatorId", Json.str "u1"), ("roomId", Json.str "R1"),
    ("round", Json.num 1), ("body", Json.str "b")]⟩

/-- The three documents of the `by_contentid` scenario, as the scenario writes
them: an id and a `contentId`, no `type`. -/
def scenarioStore : List StoreEntry :=
  [⟨false, ⟨[("_id", Json.str "a1"), ("contentId", Json.str "Q1")]⟩⟩,
   ⟨false, ⟨[("_id", Json.str "a2"), ("contentId", Json.str "Q1")]⟩⟩,
   ⟨false, ⟨[("_id", Json.str "a3"), ("contentId", Json.str "Q2")]⟩⟩]

/-- The three documents of the `by_contentid` scenario as Answer documents;
`a2Deleted` tells whether `a2` has been deleted. -/
def answerStore (a2Deleted : Bool) : List StoreEntry :=
  [⟨false, ⟨[("_id", Json.str "a1"), ("type", Json.str "Answer"), ("contentId", Json.str "Q1")]⟩⟩,
   ⟨a2Deleted,
    ⟨[("_id", Json.str "a2"), ("type", Json.str "Answer"), ("contentId", Json.str "Q1")]⟩⟩,
   ⟨false, ⟨[("_id", Json.str "a3"), ("type", Json.str "Answer"), ("contentId", Json.str "Q2")]⟩⟩]

/-- The document of the `by_contentid_creatorid_round` scenario, as the
scenario writes it: no `type`. -/
def scenarioDoc : Doc :=
  ⟨[("_id", Json.str "a1"), ("contentId", Json.str "Q1"), ("creatorId", Json.str "u1"),
    ("round", Json.num 1)]⟩

/-- The document of the `by_contentid_creatorid_round` scenario as an Answer
document. -/
def scenarioAnswer : Doc :=
  ⟨[("_id", Json.str "a1"), ("type", Json.str "Answer"), ("contentId", Json.str "Q1"),
    ("creatorId", Json.str "u1"), ("round", Json.num 1)]⟩

/-- Three Answer documents over two contents, for the group-level example. -/
def groupDocs : List Doc :=
  [⟨[("_id", Json.str "a1"), ("type", Json.str "Answer"), ("contentId", Json.str "Q1"),
     ("round", Json.num 1), ("selectedChoiceIndexes", Json.arr [Json.num 0])]⟩,
   ⟨[("_id", Json.str "a2"), ("type", Json.str "Answer"), ("contentId", Json.str "Q1"),
     ("round", Json.num 2), ("selectedChoiceIndexes", Json.arr [Json.num 1, Json.num 2])]⟩,
   ⟨[("_id", Json.str "a3"), ("type", Json.str "Answer"), ("contentId", Json.str "Q2"),
     ("round", Json.num 1)]⟩,
   ⟨[("_id", Json.str "c1"), ("type", Json.str "Content")]⟩]

/-- The document fields the map function of each view reads for its key, in the
order in which they appear in the key. -/
def keyFields : String → List String
  | "by_id" => ["_id"]
  | "by_contentid" => ["contentId"]
  | "by_contentid_round_body_subject" =>
      ["contentId", "round", "abstention", "body", "subject", "successfulFreeTextAnswer"]
  | "by_contentid_round_selectedchoiceindexes" => ["contentId", "round", "selectedChoiceIndexes"]
  | "by_contentid_creationtimestamp" => ["contentId", "creationTimestamp"]
  | "by_contentid_creatorid_round" => ["contentId", "creatorId", "round"]
  | "by_roomid" => ["roomId"]
  | "by_creatorid_roomid" => ["creatorId", "roomId"]
  | _ => []

/-- An Answer document that has none of the key fields. -/
def bareAnswer : Doc :=
  ⟨[("type", Json.str "Answer")]⟩

/-- An Answer document whose `contentId` holds an array of two elements. -/
def arrayContentAnswer : Doc :=
  ⟨[("_id", Json.str "a2"), ("type", Json.str "Answer"),
    ("contentId", Json.arr [Json.str "Q1", Json.str "Q2"])]⟩

/-- An Answer document with `contentId` "Q1" and no `_rev`, which differs from
`scenarioAnswer` in `_id`, `creatorId`, `round` and `body`. -/
def bareContentAnswer : Doc :=
  ⟨[("_id", Json.str "a9"), ("type", Json.str "Answer"), ("contentId", Json.str "Q1"),
    ("creatorId", Json.str "u7"), ("round", Json.num 3), ("body", Json.str "text")]⟩

/-! ## Closed forms used in the proofs -/

/-- The value every map function emits, in JSON form. -/
def revValue (doc : Doc) : Json :=
  (JSVal.obj [("_rev", doc.get "_rev")]).toJSON

/-- The key each view emits for a document, in JSON form. -/
def viewKey (doc : Doc) : String → Json
  | "by_id" => (doc.get "_id").toJSON
  | "by_contentid" => (doc.get "contentId").toJSON
  | "by_contentid_round_body_subject" =>
      Json.arr [(doc.get "contentId").toJSON, (doc.get "round").toJSON,
        (doc.get "abstention").toJSON, (doc.get "body").toJSON, (doc.get "subject").toJSON,
        (doc.get "successfulFreeTextAnswer").toJSON]
  | "by_contentid_round_selectedchoiceindexes" =>
      Json.arr [(doc.get "contentId").toJSON, (doc.get "round").toJSON,
        (doc.get "selectedChoiceIndexes").toJSON]
  | "by_contentid_creationtimestamp" =>
      Json.arr [(doc.get "contentId").toJSON, (doc.get "creationTimestamp").toJSON]
  | "by_contentid_creatorid_round" =>
      Json.arr [(doc.get "contentId").toJSON, (doc.get "creatorId").toJSON,
        (doc.get "round").toJSON]
  | "by_roomid" => (doc.get "roomId").toJSON
  | "by_creatorid_roomid" => Json.arr [(doc.get "creatorId").toJSON, (doc.get "roomId").toJSON]
  | _ => Json.null

/-! ## Basic facts about the embedding -/

open designDoc.views

theorem JSVal.strictEqString_eq_true_iff (v : JSVal) (s : String) :
    v.strictEqString s = true ↔ v = JSVal.json (Json.str s) := by
  unfold JSVal.strictEqString
  split <;> simp_all

theorem JSVal.strictEqString_eq_false_iff (v : JSVal) (s : String) :
    v.strictEqString s = false ↔ v ≠ JSVal.json (Json.str s) := by
  rw [Ne, ← JSVal.strictEqString_eq_true_iff]
  simp

theorem mem_views_iff (p : String × View) :
    p ∈ designDoc.views ↔
      p = ("by_id", by_id) ∨ p = ("by_contentid", by_contentid) ∨
      p = ("by_contentid_round_body_subject", by_contentid_round_body_subject) ∨
      p = ("by_contentid_round_selectedchoiceindexes",
            by_contentid_round_selectedchoiceindexes) ∨
      p = ("by_contentid_creationtimestamp", by_contentid_creationtimestamp) ∨
      p = ("by_contentid_creatorid_round", by_contentid_creatorid_round) ∨
      p = ("by_roomid", by_roomid) ∨ p = ("by_creatorid_roomid", by_creatorid_roomid) := by
  simp [designDoc]

/-- The guard of every map function, `doc.type === "Answer"`, holds exactly for
the documents whose `type` is the string "Answer". -/
theorem guard_eq_hasType (doc : Doc) :
    (doc.get "type").strictEqString "Answer" = doc.hasType "Answer" := by
  unfold Doc.get Doc.hasType JSVal.strictEqString
  cases h : doc.props.lookup "type" with
  | none => simp
  | some j => cases j <;> simp

theorem hasType_iff (doc : Doc) (t : String) :
    doc.hasType t = true ↔ doc.get "type" = JSVal.json (Json.str t) := by
  unfold Doc.get Doc.hasType
  cases h : doc.props.lookup "type" <;> simp

/-- What each view of the design document emits for a document: one emission
for a document of type "Answer", none otherwise. -/
theorem emissions_eq (name : String) (v : View) (hv : (name, v) ∈ designDoc.views)
    (doc : Doc) :
    v.emissions doc =
      if doc.hasType "Answer" then [⟨viewKey doc name, revValue doc⟩] else [] := by
  rcases (mem_views_iff _).1 hv with e | e | e | e | e | e | e | e <;>
    · cases e
      simp [View.emissions, by_id, by_contentid, by_contentid_round_body_subject,
        by_contentid_round_selectedchoiceindexes, by_contentid_creationtimestamp,
        by_contentid_creatorid_round, by_roomid, by_creatorid_roomid, guard_eq_hasType,
        emit, viewKey, revValue, JSVal.toJSON, JSVal.toJSONList]

/-- The JSON form of the value literal `{_rev: doc._rev}`. -/
theorem toJSON_rev_object (r : JSVal) :
    (JSVal.obj [("_rev", r)]).toJSON =
      match r with
      | JSVal.undefined => Json.obj []
      | r => Json.obj [("_rev", r.toJSON)] := by
  cases r <;> simp [JSVal.toJSON, JSVal.toJSONProps]

/-! ## The claims -/

/-- C1: for each of the eight views, a document whose `type` is not exactly the
string "Answer" (a document without a `type` property reads `undefined` there)
makes the map function emit nothing. -/
theorem map_emits_nothing_unless_answer (name : String) (v : View)
    (hv : (name, v) ∈ designDoc.views) (doc : Doc)
    (ht : doc.get "type" ≠ JSVal.json (Json.str "Answer")) :
    v.emissions doc = [] := by
  have h := (JSVal.strictEqString_eq_false_iff _ _).2 ht
  rcases (mem_views_iff _).1 hv with e | e | e | e | e | e | e | e <;>
    · cases e
      simp [View.emissions, by_id, by_contentid, by_contentid_round_body_subject,
        by_contentid_round_selectedchoiceindexes, by_contentid_creationtimestamp,
        by_contentid_creatorid_round, by_roomid, by_creatorid_roomid, h]

/-- Witness for C1: view `by_roomid` on a document that has no `type` property. -/
theorem map_emits_nothing_unless_answer_witness :
    ("by_roomid", by_roomid) ∈ designDoc.views ∧
    (Doc.mk [("_id", Json.str "c1"), ("roomId", Json.str "R1")]).get "type"
      ≠ JSVal.json (Json.str "Answer") ∧
    by_roomid.emissions (Doc.mk [("_id", Json.str "c1"), ("roomId", Json.str "R1")]) = [] :=
  ⟨by simp [designDoc], by simp [Doc.get, List.lookup],
   map_emits_nothing_unless_answer "by_roomid" by_roomid (by simp [designDoc]) _
     (by simp [Doc.get, List.lookup])⟩

theorem nullish_iff (doc : Doc) (field : String) :
    doc.nullish field = true ↔
      doc.get field = JSVal.undefined ∨ doc.get field = JSVal.json Json.null := by
  unfold Doc.get Doc.nullish
  cases h : doc.props.lookup field <;> simp

theorem toJSON_get_of_nullish (doc : Doc) (field : String) (h : doc.nullish field = true) :
    (doc.get field).toJSON = Json.null := by
  rcases (nullish_iff doc field).1 h with e | e <;> simp [e, JSVal.toJSON]

/-- C2: for each of the eight views a document of type "Answer" yields one or
more emissions, whatever its other fields are; and when its `contentId` is null
or absent, each of the six `by_contentid*` views still emits, with `null` as
the (first) component of the key. -/
theorem answer_always_emits (doc : Doc) (hA : doc.hasType "Answer" = true) :
    (∀ p ∈ designDoc.views, 1 ≤ (p.2.emissions doc).length) ∧
    (doc.nullish "contentId" = true →
      ∀ name ∈ ["by_contentid", "by_contentid_round_body_subject",
          "by_contentid_round_selectedchoiceindexes", "by_contentid_creationtimestamp",
          "by_contentid_creatorid_round"],
        ∃ v, designDoc.view name = some v ∧
          ∃ e ∈ v.emissions doc, (keyComponents e.key).head? = some Json.null) := by
  refine ⟨fun p hp => ?_, fun hn name hname => ?_⟩
  · rw [emissions_eq p.1 p.2 hp doc, hA]
    simp
  · have hc := toJSON_get_of_nullish doc "contentId" hn
    simp only [List.mem_cons, List.mem_singleton, List.not_mem_nil, or_false] at hname
    rcases hname with e | e | e | e | e <;> subst e
    · refine ⟨by_contentid, rfl, ?_⟩
      rw [emissions_eq "by_contentid" _ (by simp [designDoc]) doc, hA]
      simp [viewKey, hc, keyComponents]
    · refine ⟨by_contentid_round_body_subject, rfl, ?_⟩
      rw [emissions_eq "by_contentid_round_body_subject" _ (by simp [designDoc]) doc, hA]
      simp [viewKey, hc, keyComponents]
    · refine ⟨by_contentid_round_selectedchoiceindexes, rfl, ?_⟩
      rw [emissions_eq "by_contentid_round_selectedchoiceindexes" _ (by simp [designDoc]) doc,
        hA]
      simp [viewKey, hc, keyComponents]
    · refine ⟨by_contentid_creationtimestamp, rfl, ?_⟩
      rw [emissions_eq "by_contentid_creationtimestamp" _ (by simp [designDoc]) doc, hA]
      simp [viewKey, hc, keyComponents]
    · refine ⟨by_contentid_creatorid_round, rfl, ?_⟩
      rw [emissions_eq "by_contentid_creatorid_round" _ (by simp [designDoc]) doc, hA]
      simp [viewKey, hc, keyComponents]

/-- Witness for C2: an Answer document that has no `contentId` at all. -/
theorem answer_always_emits_witness :
    (Doc.mk [("_id", Json.str "a1"), ("type", Json.str "Answer")]).hasType "Answer" = true ∧
    (Doc.mk [("_id", Json.str "a1"), ("type", Json.str "Answer")]).nullish "contentId" = true ∧
    (∃ e ∈ by_contentid.emissions (Doc.mk [("_id", Json.str "a1"), ("type", Json.str "Answer")]),
      (keyComponents e.key).head? = some Json.null) := by
  have h := answer_always_emits (Doc.mk [("_id", Json.str "a1"), ("type", Json.str "Answer")])
    (by decide)
  refine ⟨by decide, by decide, ?_⟩
  obtain ⟨v, hv, he⟩ := h.2 (by decide) "by_contentid" (by simp)
  have : v = by_contentid := by
    have h2 : designDoc.view "by_contentid" = some by_contentid := rfl
    rw [h2] at hv
    exact (Option.some.inj hv).symm
  rw [← this]
  exact he

/-- C3: for every view and every document, every emission of the map function
carries as value the object `{_rev: doc._rev}` and nothing else: in JSON form
the object whose only property is `_rev` with the document's revision (and the
empty object for a document that has no `_rev`). -/
theorem emitted_value_is_rev (name : String) (v : View) (hv : (name, v) ∈ designDoc.views)
    (doc : Doc) (e : Emission) (he : e ∈ v.emissions doc) :
    e.value = (JSVal.obj [("_rev", doc.get "_rev")]).toJSON ∧
    (∀ r, doc.get "_rev" = JSVal.json r → e.value = Json.obj [("_rev", r)]) ∧
    (doc.get "_rev" = JSVal.undefined → e.value = Json.obj []) := by
  rw [emissions_eq name v hv doc] at he
  have hval : e.value = (JSVal.obj [("_rev", doc.get "_rev")]).toJSON := by
    split at he
    · simp only [List.mem_singleton] at he
      rw [he]
      rfl
    · simp at he
  refine ⟨hval, fun r hr => ?_, fun hr => ?_⟩
  · rw [hval, hr]
    simp [JSVal.toJSON, JSVal.toJSONProps]
  · rw [hval, hr]
    simp [JSVal.toJSON, JSVal.toJSONProps]

/-- Witness for C3: the emission of `by_creatorid_roomid` for an Answer
document with revision "1-abc". -/
theorem emitted_value_is_rev_witness :
    ("by_creatorid_roomid", by_creatorid_roomid) ∈ designDoc.views ∧
    (⟨Json.arr [Json.str "u1", Json.str "R1"], Json.obj [("_rev", Json.str "1-abc")]⟩ : Emission)
      ∈ by_creatorid_roomid.emissions (Doc.mk [("_id", Json.str "a1"),
          ("_rev", Json.str "1-abc"), ("type", Json.str "Answer"), ("creatorId", Json.str "u1"),
          ("roomId", Json.str "R1")]) ∧
    (⟨Json.arr [Json.str "u1", Json.str "R1"], Json.obj [("_rev", Json.str "1-abc")]⟩ :
        Emission).value
      = (JSVal.obj [("_rev", (Doc.mk [("_id", Json.str "a1"),
          ("_rev", Json.str "1-abc"), ("type", Json.str "Answer"), ("creatorId", Json.str "u1"),
          ("roomId", Json.str "R1")]).get "_rev")]).toJSON :=
  ⟨by simp [designDoc], by decide,
   (emitted_value_is_rev "by_creatorid_roomid" by_creatorid_roomid (by simp [designDoc])
      (Doc.mk [("_id", Json.str "a1"), ("_rev", Json.str "1-abc"), ("type", Json.str "Answer"),
        ("creatorId", Json.str "u1"), ("roomId", Json.str "R1")])
      ⟨Json.arr [Json.str "u1", Json.str "R1"], Json.obj [("_rev", Json.str "1-abc")]⟩
      (by decide)).1⟩

theorem keyComponents_toJSON_get (doc : Doc) (field : String)
    (h : doc.isArrayField field = false) :
    (keyComponents (doc.get field).toJSON).length = 1 := by
  unfold Doc.isArrayField at h
  unfold Doc.get
  cases hl : doc.props.lookup field with
  | none => simp [JSVal.toJSON, keyComponents]
  | some j =>
    rw [hl] at h
    cases j <;> simp_all [JSVal.toJSON, keyComponents]

/-- C4, as the claim states it, fails: view `by_contentid` emits the value of
`contentId` itself as the key, so an Answer document whose `contentId` is an
array of seven elements gets a key of seven components. -/
theorem key_arity_counterexample :
    ("by_contentid", by_contentid) ∈ designDoc.views ∧
    (by_contentid.emissions (Doc.mk [("_id", Json.str "a1"), ("type", Json.str "Answer"),
        ("contentId", Json.arr [Json.num 1, Json.num 2, Json.num 3, Json.num 4, Json.num 5,
          Json.num 6, Json.num 7])])).map (fun e => (keyComponents e.key).length) = [7] :=
  ⟨by simp [designDoc], by decide⟩

/-- C4, amended: for every Answer document, with no condition on its fields,
the key emitted by view `by_contentid_round_body_subject` is the 6-component
tuple [contentId, round, abstention, body, subject, successfulFreeTextAnswer]
of the document's fields, in that order; and for every document in which none
of the fields `_id`, `contentId`, `roomId` (which the scalar-key views emit as
the whole key) holds an array, the key of every emission of every view has
between 1 and 6 components. -/
theorem key_shape (doc : Doc) :
    (doc.hasType "Answer" = true →
      (by_contentid_round_body_subject.emissions doc).map Emission.key =
        [Json.arr [(doc.get "contentId").toJSON, (doc.get "round").toJSON,
          (doc.get "abstention").toJSON, (doc.get "body").toJSON, (doc.get "subject").toJSON,
          (doc.get "successfulFreeTextAnswer").toJSON]]) ∧
    (doc.isArrayField "_id" = false ∧ doc.isArrayField "contentId" = false ∧
        doc.isArrayField "roomId" = false →
      ∀ p ∈ designDoc.views, ∀ e ∈ p.2.emissions doc,
        1 ≤ (keyComponents e.key).length ∧ (keyComponents e.key).length ≤ 6) := by
  constructor
  · intro hA
    rw [emissions_eq "by_contentid_round_body_subject" _ (by simp [designDoc]) doc, hA]
    simp [viewKey]
  · intro hs p hp e he
    rw [emissions_eq p.1 p.2 hp doc] at he
    split at he
    · simp only [List.mem_singleton] at he
      subst he
      have h1 := keyComponents_toJSON_get doc "_id" hs.1
      have h2 := keyComponents_toJSON_get doc "contentId" hs.2.1
      have h3 := keyComponents_toJSON_get doc "roomId" hs.2.2
      rcases (mem_views_iff _).1 hp with e | e | e | e | e | e | e | e <;>
        · rw [e]
          simp only [viewKey]
          first
            | rw [h1]; decide
            | rw [h2]; decide
            | rw [h3]; decide
            | simp [keyComponents]
    · simp at he

/-- Witness for C4, amended: the 6-tuple of an Answer document whose
`contentId` holds an array, and the bounds for the emission of `by_contentid`
on an Answer document with string ids. -/
theorem key_shape_witness :
    arrayContentAnswer.hasType "Answer" = true ∧
    (by_contentid_round_body_subject.emissions arrayContentAnswer).map Emission.key =
      [Json.arr [Json.arr [Json.str "Q1", Json.str "Q2"], Json.null, Json.null, Json.null,
        Json.null, Json.null]] ∧
    (sampleAnswer.isArrayField "_id" = false ∧ sampleAnswer.isArrayField "contentId" = false ∧
      sampleAnswer.isArrayField "roomId" = false) ∧
    ("by_contentid", by_contentid) ∈ designDoc.views ∧
    (⟨Json.str "Q1", Json.obj [("_rev", Json.str "1-abc")]⟩ : Emission) ∈
      by_contentid.emissions sampleAnswer ∧
    (1 ≤ (keyComponents (⟨Json.str "Q1", Json.obj [("_rev", Json.str "1-abc")]⟩ :
        Emission).key).length ∧
      (keyComponents (⟨Json.str "Q1", Json.obj [("_rev", Json.str "1-abc")]⟩ :
        Emission).key).length ≤ 6) :=
  ⟨by decide, (key_shape arrayContentAnswer).1 (by decide), by decide, by simp [designDoc],
   by decide,
   (key_shape sampleAnswer).2 (by decide) ("by_contentid", by_contentid)
     (by simp [designDoc]) _ (by decide)⟩

/-- C5: the design document declares exactly eight views, under the eight names
`by_id`, `by_contentid`, `by_contentid_round_body_subject`,
`by_contentid_round_selectedchoiceindexes`, `by_contentid_creationtimestamp`,
`by_contentid_creatorid_round`, `by_roomid` and `by_creatorid_roomid`, one view
per name, and each of them has a map function. -/
theorem eight_views :
    designDoc.views.map Prod.fst =
      ["by_id", "by_contentid", "by_contentid_round_body_subject",
       "by_contentid_round_selectedchoiceindexes", "by_contentid_creationtimestamp",
       "by_contentid_creatorid_round", "by_roomid", "by_creatorid_roomid"] ∧
    designDoc.views.length = 8 ∧
    (designDoc.views.map Prod.fst).Nodup ∧
    (designDoc.views.all fun p => p.2.map.isSome) = true := by
  refine ⟨rfl, rfl, ?_, rfl⟩
  simp [designDoc]

/-- C6: every reduce declared in the design document is the built-in `_count`;
`by_contentid` declares it, `by_contentid_creatorid_round` declares no reduce,
and the views with a reduce are exactly `by_id`, `by_contentid`,
`by_contentid_round_body_subject`, `by_contentid_round_selectedchoiceindexes`
and `by_roomid`. -/
theorem reduces_are_count :
    (designDoc.views.all fun p => p.2.reduce = none || p.2.reduce = some "_count") = true ∧
    (designDoc.view "by_contentid").map View.reduce = some (some "_count") ∧
    (designDoc.view "by_contentid_creatorid_round").map View.reduce = some none ∧
    (designDoc.views.filter fun p => p.2.reduce.isSome).map Prod.fst =
      ["by_id", "by_contentid", "by_contentid_round_body_subject",
       "by_contentid_round_selectedchoiceindexes", "by_roomid"] := by
  refine ⟨by decide, rfl, rfl, rfl⟩

/-- The rows of a view of the design document: one row for each document of
type "Answer", in the order of the documents. -/
theorem viewRows_eq (name : String) (v : View) (hv : (name, v) ∈ designDoc.views)
    (docs : List Doc) :
    viewRows v docs =
      (docs.filter fun d => d.hasType "Answer").map fun d =>
        ⟨d.id, viewKey d name, revValue d⟩ := by
  induction docs with
  | nil => rfl
  | cons d ds ih =>
    have hcons : viewRows v (d :: ds) =
        ((v.emissions d).map fun e => (⟨d.id, e.key, e.value⟩ : Row)) ++ viewRows v ds := by
      simp [viewRows]
    rw [hcons, ih, emissions_eq name v hv d]
    cases hA : d.hasType "Answer" <;> simp [List.filter_cons, hA]

theorem liveDocs_ids_sublist (store : List StoreEntry) (q : Doc → Bool) :
    List.Sublist (((liveDocs store).filter q).map Doc.id)
      (store.map fun e => e.content.id) := by
  have h1 : List.Sublist ((liveDocs store).filter q) (store.map StoreEntry.content) :=
    (List.filter_sublist _).trans ((List.filter_sublist _).map _)
  have h2 := h1.map Doc.id
  simpa [List.map_map] using h2

/-- C7, as the claim states it, fails: the three live documents of the scenario
have pairwise distinct ids, they carry no `type`, and `by_id` has no row for
any of them. -/
theorem by_id_rows_counterexample :
    (scenarioStore.map fun e => e.content.id).Nodup ∧
    (liveDocs scenarioStore).map Doc.id = [Json.str "a1", Json.str "a2", Json.str "a3"] ∧
    (viewRows by_id (liveDocs scenarioStore)).map Row.key = [] :=
  ⟨by decide, by decide, by decide⟩

/-- C7, amended: for every collection of documents with pairwise distinct ids,
the rows of view `by_id` over the documents currently not deleted name exactly
the ids of the non-deleted documents of type "Answer", each id exactly once. -/
theorem by_id_rows_current (store : List StoreEntry)
    (hid : (store.map fun e => e.content.id).Nodup) :
    (viewRows by_id (liveDocs store)).map Row.key =
      ((liveDocs store).filter fun d => d.hasType "Answer").map Doc.id ∧
    ((viewRows by_id (liveDocs store)).map Row.key).Nodup ∧
    ∀ d ∈ liveDocs store, d.hasType "Answer" = true →
      ((viewRows by_id (liveDocs store)).map Row.key).count d.id = 1 := by
  have hkeys : (viewRows by_id (liveDocs store)).map Row.key =
      ((liveDocs store).filter fun d => d.hasType "Answer").map Doc.id := by
    rw [viewRows_eq "by_id" by_id (by simp [designDoc])]
    simp [List.map_map, Function.comp_def, viewKey, Doc.id]
  have hnd : ((viewRows by_id (liveDocs store)).map Row.key).Nodup := by
    rw [hkeys]
    exact (liveDocs_ids_sublist store _).nodup hid
  refine ⟨hkeys, hnd, fun d hd hA => List.count_eq_one_of_mem hnd ?_⟩
  rw [hkeys]
  exact List.mem_map.2 ⟨d, List.mem_filter.2 ⟨hd, hA⟩, rfl⟩

/-- Witness for C7, amended: the scenario's documents as Answer documents, with
`a2` deleted. -/
theorem by_id_rows_current_witness :
    ((answerStore true).map fun e => e.content.id).Nodup ∧
    (viewRows by_id (liveDocs (answerStore true))).map Row.key =
      ((liveDocs (answerStore true)).filter fun d => d.hasType "Answer").map Doc.id ∧
    ((liveDocs (answerStore true)).filter fun d => d.hasType "Answer").map Doc.id =
      [Json.str "a1", Json.str "a3"] :=
  ⟨by decide, (by_id_rows_current (answerStore true) (by decide)).1, by decide⟩

/-- C8, as the claim states it, fails: of the scenario's live documents two
have `contentId` "Q1", but they carry no `type`, and `by_contentid` counts no
row under "Q1". -/
theorem by_contentid_count_counterexample :
    ((liveDocs scenarioStore).filter fun d =>
        decide ((d.get "contentId").toJSON = Json.str "Q1")).length = 2 ∧
    countKey (viewRows by_contentid (liveDocs scenarioStore)) (Json.str "Q1") = 0 :=
  ⟨by decide, by decide⟩

/-- C8, amended: for every collection of documents and every contentId `c`, the
`_count` of view `by_contentid` under key `c` equals the number of live
documents of type "Answer" whose `contentId` is `c`. With the scenario's three
documents as Answer documents the count for "Q1" is 2, and 1 once `a2` is
deleted. -/
theorem by_contentid_count :
    (∀ (store : List StoreEntry) (c : Json),
      countKey (viewRows by_contentid (liveDocs store)) c =
        ((liveDocs store).filter fun d =>
          d.hasType "Answer" && decide ((d.get "contentId").toJSON = c)).length) ∧
    countKey (viewRows by_contentid (liveDocs (answerStore false))) (Json.str "Q1") = 2 ∧
    countKey (viewRows by_contentid (liveDocs (answerStore true))) (Json.str "Q1") = 1 := by
  refine ⟨fun store c => ?_, by decide, by decide⟩
  rw [countKey, viewRows_eq "by_contentid" by_contentid (by simp [designDoc]),
    List.countP_map, List.countP_filter, List.countP_eq_length_filter]
  congr 1
  apply List.filter_congr
  intro d _
  simp [viewKey, Bool.and_comm]

theorem lookup_setProp_self (props : List (String × Json)) (field : String) (v : Json) :
    (setProp props field v).lookup field = some v := by
  induction props with
  | nil => simp [setProp, List.lookup_cons]
  | cons p ps ih =>
    obtain ⟨k, w⟩ := p
    by_cases hk : k = field
    · simp [setProp, hk, List.lookup_cons]
    · have hb : (field == k) = false := by
        simpa using fun e : field = k => hk e.symm
      simp [setProp, hk, List.lookup_cons, hb, ih]

theorem lookup_setProp_other (props : List (String × Json)) (field other : String) (v : Json)
    (hne : other ≠ field) :
    (setProp props field v).lookup other = props.lookup other := by
  have hf : (other == field) = false := by simpa using hne
  induction props with
  | nil => simp [setProp, List.lookup_cons, hf]
  | cons p ps ih =>
    obtain ⟨k, w⟩ := p
    by_cases hk : k = field
    · subst hk
      simp [setProp, List.lookup_cons, hf]
    · cases hb : (other == k) <;> simp [setProp, hk, List.lookup_cons, hb, ih]

/-- Reading back the field just written. -/
theorem get_set_self (doc : Doc) (field : String) (v : Json) :
    (doc.set field v).get field = JSVal.json v := by
  simp [Doc.set, Doc.get, lookup_setProp_self]

/-- Writing one field leaves every other field as it was. -/
theorem get_set_other (doc : Doc) (field other : String) (v : Json) (hne : other ≠ field) :
    (doc.set field v).get other = doc.get other := by
  simp [Doc.set, Doc.get, lookup_setProp_other _ _ _ _ hne]

theorem hasType_set (doc : Doc) (field : String) (v : Json) (t : String)
    (hne : "type" ≠ field) : (doc.set field v).hasType t = doc.hasType t := by
  have h := get_set_other doc field "type" v hne
  have e1 := hasType_iff (doc.set field v) t
  have e2 := hasType_iff doc t
  rw [h] at e1
  rw [Bool.eq_iff_iff, e1, e2]

/-- C9, as the claim states it, fails: the scenario's document carries no
`type`; after its `round` is updated from 1 to 2 the view has no row at all, so
none under ["Q1","u1",2]. -/
theorem round_update_counterexample :
    scenarioDoc.get "round" = JSVal.json (Json.num 1) ∧ Json.num 1 ≠ Json.num 2 ∧
    viewRows by_contentid_creatorid_round [scenarioDoc.set "round" (Json.num 2)] = [] ∧
    countKey (viewRows by_contentid_creatorid_round [scenarioDoc.set "round" (Json.num 2)])
      (Json.arr [Json.str "Q1", Json.str "u1", Json.num 2]) = 0 :=
  ⟨rfl, by decide, by decide, by decide⟩

/-- C9, amended: for every document of type "Answer" and every two distinct
round values r1 and r2, once the document's `round` is updated from r1 to r2
the rows of view `by_contentid_creatorid_round` for the document's current
content contain no row under key [contentId, creatorId, r1] and exactly one
row, for that document, under key [contentId, creatorId, r2]. -/
theorem round_update_moves_row (doc : Doc) (r1 r2 : Json)
    (hA : doc.hasType "Answer" = true) (h1 : doc.get "round" = JSVal.json r1)
    (hne : r1 ≠ r2) :
    (viewRows by_contentid_creatorid_round [doc]).map Row.key =
      [Json.arr [(doc.get "contentId").toJSON, (doc.get "creatorId").toJSON, r1]] ∧
    countKey (viewRows by_contentid_creatorid_round [doc.set "round" r2])
      (Json.arr [(doc.get "contentId").toJSON, (doc.get "creatorId").toJSON, r1]) = 0 ∧
    ((viewRows by_contentid_creatorid_round [doc.set "round" r2]).filter fun r =>
        r.key = Json.arr [(doc.get "contentId").toJSON, (doc.get "creatorId").toJSON, r2]).map
      Row.id = [doc.id] := by
  have hA2 : (doc.set "round" r2).hasType "Answer" = true := by
    rw [hasType_set doc "round" r2 "Answer" (by decide)]
    exact hA
  have hrows : viewRows by_contentid_creatorid_round [doc.set "round" r2] =
      [⟨doc.id, Json.arr [(doc.get "contentId").toJSON, (doc.get "creatorId").toJSON, r2],
        revValue (doc.set "round" r2)⟩] := by
    rw [viewRows_eq "by_contentid_creatorid_round" _ (by simp [designDoc])]
    simp [List.filter_cons, hA2, viewKey, Doc.id, get_set_self,
      get_set_other doc "round" "contentId" r2 (by decide),
      get_set_other doc "round" "creatorId" r2 (by decide),
      get_set_other doc "round" "_id" r2 (by decide), JSVal.toJSON]
  refine ⟨?_, ?_, ?_⟩
  · rw [viewRows_eq "by_contentid_creatorid_round" _ (by simp [designDoc])]
    simp [List.filter_cons, hA, viewKey, h1, JSVal.toJSON]
  · have : ¬ r2 = r1 := fun e => hne e.symm
    simp [hrows, countKey, this]
  · simp [hrows]

/-- Witness for C9, amended: the scenario's document as an Answer document,
its `round` updated from 1 to 2. -/
theorem round_update_moves_row_witness :
    scenarioAnswer.hasType "Answer" = true ∧
    scenarioAnswer.get "round" = JSVal.json (Json.num 1) ∧ Json.num 1 ≠ Json.num 2 ∧
    (viewRows by_contentid_creatorid_round [scenarioAnswer]).map Row.key =
      [Json.arr [(scenarioAnswer.get "contentId").toJSON,
        (scenarioAnswer.get "creatorId").toJSON, Json.num 1]] ∧
    countKey (viewRows by_contentid_creatorid_round [scenarioAnswer.set "round" (Json.num 2)])
      (Json.arr [(scenarioAnswer.get "contentId").toJSON,
        (scenarioAnswer.get "creatorId").toJSON, Json.num 1]) = 0 ∧
    ((viewRows by_contentid_creatorid_round [scenarioAnswer.set "round" (Json.num 2)]).filter
        fun r => r.key = Json.arr [(scenarioAnswer.get "contentId").toJSON,
          (scenarioAnswer.get "creatorId").toJSON, Json.num 2]).map Row.id
      = [scenarioAnswer.id] :=
  ⟨by decide, rfl, by decide,
   round_update_moves_row scenarioAnswer (Json.num 1) (Json.num 2) (by decide) rfl (by decide)⟩

theorem countP_groupKey (level : Nat) (rows : List Row) (g : Json) :
    (rows.countP fun r => groupKey level r.key = g) =
      (rows.map fun r => groupKey level r.key).count g := by
  rw [List.count, List.countP_map]
  apply List.countP_congr
  intro r _
  simp

/-- The counts of the groups at any level add up to the number of rows. -/
theorem reduceCount_sum (level : Nat) (rows : List Row) :
    ((reduceCount level rows).map Prod.snd).sum = rows.length := by
  have h := List.sum_map_count_dedup_eq_length (rows.map fun r => groupKey level r.key)
  rw [List.length_map] at h
  rw [← h, reduceCount, List.map_map]
  congr 1
  apply List.map_congr_left
  intro g _
  exact countP_groupKey level rows g

/-- Every row lies in exactly one group at any level. -/
theorem reduceCount_unique_group (level : Nat) (rows : List Row) (r : Row) (hr : r ∈ rows) :
    ((reduceCount level rows).filter fun g => g.1 = groupKey level r.key).length = 1 := by
  have hmem : groupKey level r.key ∈ (rows.map fun r => groupKey level r.key).dedup :=
    List.mem_dedup.2 (List.mem_map.2 ⟨r, hr, rfl⟩)
  have h := List.count_eq_one_of_mem (List.nodup_dedup _) hmem
  rw [← List.countP_eq_length_filter, reduceCount, List.countP_map, ← h, List.count]
  apply List.countP_congr
  intro g _
  simp

/-- C10: for view `by_contentid_round_selectedchoiceindexes` and every finite
list of documents, every row has a 3-component key and its group at group
level 1 is named by the first component (contentId) alone; two rows share a
group exactly when they agree on that component; every row lies in exactly one
group; and the per-group counts add up to the group-level-0 count, the number
of rows emitted. -/
theorem group_level_one (docs : List Doc) :
    (∀ r ∈ viewRows by_contentid_round_selectedchoiceindexes docs,
      ∃ c x y, r.key = Json.arr [c, x, y] ∧ groupKey 1 r.key = Json.arr [c]) ∧
    (∀ r ∈ viewRows by_contentid_round_selectedchoiceindexes docs,
      ∀ t ∈ viewRows by_contentid_round_selectedchoiceindexes docs,
        (groupKey 1 r.key = groupKey 1 t.key ↔
          (keyComponents r.key).head? = (keyComponents t.key).head?)) ∧
    (∀ r ∈ viewRows by_contentid_round_selectedchoiceindexes docs,
      ((reduceCount 1 (viewRows by_contentid_round_selectedchoiceindexes docs)).filter
        fun g => g.1 = groupKey 1 r.key).length = 1) ∧
    ((reduceCount 1 (viewRows by_contentid_round_selectedchoiceindexes docs)).map Prod.snd).sum =
      ((reduceCount 0 (viewRows by_contentid_round_selectedchoiceindexes docs)).map
        Prod.snd).sum ∧
    ((reduceCount 0 (viewRows by_contentid_round_selectedchoiceindexes docs)).map Prod.snd).sum =
      (viewRows by_contentid_round_selectedchoiceindexes docs).length := by
  have hshape : ∀ r ∈ viewRows by_contentid_round_selectedchoiceindexes docs,
      ∃ c x y, r.key = Json.arr [c, x, y] ∧ groupKey 1 r.key = Json.arr [c] := by
    intro r hr
    rw [viewRows_eq "by_contentid_round_selectedchoiceindexes" _ (by simp [designDoc])] at hr
    obtain ⟨d, _, rfl⟩ := List.mem_map.1 hr
    exact ⟨_, _, _, rfl, by simp [viewKey, groupKey]⟩
  refine ⟨hshape, fun r hr t ht => ?_, fun r hr => reduceCount_unique_group 1 _ r hr, ?_,
    reduceCount_sum 0 _⟩
  · obtain ⟨c, x, y, hk, hg⟩ := hshape r hr
    obtain ⟨c2, x2, y2, hk2, hg2⟩ := hshape t ht
    rw [hg, hg2, hk, hk2]
    simp [keyComponents]
  · rw [reduceCount_sum 1, reduceCount_sum 0]

/-- Witness for C10: three Answer documents over two contents and one document
of another type; at group level 1 the groups are ["Q1"] with 2 rows and ["Q2"]
with 1 row, at group level 0 a single group with 3 rows. -/
theorem group_level_one_witness :
    reduceCount 1 (viewRows by_contentid_round_selectedchoiceindexes groupDocs) =
      [(Json.arr [Json.str "Q1"], 2), (Json.arr [Json.str "Q2"], 1)] ∧
    reduceCount 0 (viewRows by_contentid_round_selectedchoiceindexes groupDocs) =
      [(Json.null, 3)] ∧
    ((reduceCount 1 (viewRows by_contentid_round_selectedchoiceindexes groupDocs)).map
        Prod.snd).sum =
      ((reduceCount 0 (viewRows by_contentid_round_selectedchoiceindexes groupDocs)).map
        Prod.snd).sum :=
  ⟨by decide, by decide, (group_level_one groupDocs).2.2.2.1⟩

theorem hasType_congr (d1 d2 : Doc) (t : String) (h : d1.get "type" = d2.get "type") :
    d1.hasType t = d2.hasType t := by
  rw [Bool.eq_iff_iff, hasType_iff, hasType_iff, h]

theorem revValue_congr (d1 d2 : Doc) (h : d1.get "_rev" = d2.get "_rev") :
    revValue d1 = revValue d2 := by
  unfold revValue
  rw [h]

/-- The key of a view is built from the view's key fields alone. -/
theorem viewKey_congr (name : String) (v : View) (hv : (name, v) ∈ designDoc.views)
    (d1 d2 : Doc) (hk : ∀ f ∈ keyFields name, d1.get f = d2.get f) :
    viewKey d1 name = viewKey d2 name := by
  rcases (mem_views_iff _).1 hv with e | e | e | e | e | e | e | e <;>
    · cases e
      simp only [keyFields, List.mem_cons, List.mem_singleton, List.not_mem_nil, or_false,
        forall_eq_or_imp, forall_eq] at hk
      simp [viewKey, hk]

theorem mem_mapSteps_iff (p : String × MapStep) :
    p ∈ designDoc.mapSteps ↔
      p = ("by_id", designDoc.steps.by_id) ∨
      p = ("by_contentid", designDoc.steps.by_contentid) ∨
      p = ("by_contentid_round_body_subject",
            designDoc.steps.by_contentid_round_body_subject) ∨
      p = ("by_contentid_round_selectedchoiceindexes",
            designDoc.steps.by_contentid_round_selectedchoiceindexes) ∨
      p = ("by_contentid_creationtimestamp",
            designDoc.steps.by_contentid_creationtimestamp) ∨
      p = ("by_contentid_creatorid_round", designDoc.steps.by_contentid_creatorid_round) ∨
      p = ("by_roomid", designDoc.steps.by_roomid) ∨
      p = ("by_creatorid_roomid", designDoc.steps.by_creatorid_roomid) := by
  simp [designDoc.mapSteps]

/-- A step that only appends a list computed from the document: run over a
sequence of documents it appends the lists of the documents in turn. -/
theorem runMaps_of_frame (step : MapStep) (f : Doc → List Emission)
    (h : ∀ doc s, step doc s = ⟨s.results ++ f doc, s.globals⟩) (docs : List Doc)
    (s : ServerState) :
    runMaps step docs s = ⟨s.results ++ docs.flatMap f, s.globals⟩ := by
  induction docs generalizing s with
  | nil => simp [runMaps]
  | cons d ds ih =>
    have hstep : runMaps step (d :: ds) s = runMaps step ds (step d s) := rfl
    rw [hstep, ih, h]
    simp [List.append_assoc]

/-- Each map function, run as a step, does what the view's map function says:
it appends the view's emissions for the document and changes nothing else. -/
theorem step_eq (name : String) (step : MapStep) (hs : (name, step) ∈ designDoc.mapSteps) :
    ∃ v, designDoc.view name = some v ∧
      ∀ doc s, step doc s = ⟨s.results ++ v.emissions doc, s.globals⟩ := by
  rcases (mem_mapSteps_iff _).1 hs with e | e | e | e | e | e | e | e <;>
    · cases e
      refine ⟨_, rfl, fun doc s => ?_⟩
      cases hg : (doc.get "type").strictEqString "Answer" <;>
        simp [View.emissions, by_id, by_contentid, by_contentid_round_body_subject,
          by_contentid_round_selectedchoiceindexes, by_contentid_creationtimestamp,
          by_contentid_creatorid_round, by_roomid, by_creatorid_roomid,
          designDoc.steps.by_id, designDoc.steps.by_contentid,
          designDoc.steps.by_contentid_round_body_subject,
          designDoc.steps.by_contentid_round_selectedchoiceindexes,
          designDoc.steps.by_contentid_creationtimestamp,
          designDoc.steps.by_contentid_creatorid_round, designDoc.steps.by_roomid,
          designDoc.steps.by_creatorid_roomid, emitStep, hg]

/-- The comparison step is not pure: run on the same document in two states it
emits different values, and it changes a global variable. -/
theorem impureStep_depends_on_state :
    (impureStep bareAnswer freshState).results.drop freshState.results.length ≠
      (impureStep bareAnswer usedState).results.drop usedState.results.length ∧
    (impureStep bareAnswer freshState).globals ≠ freshState.globals := by
  decide

/-- C11: each of the eight map functions, run by the server as a step on the
state of its JavaScript context, is a pure function of the document: from any
state it leaves the global variables and the emissions collected so far as they
are and appends emissions that are computed from the document alone; so two
evaluations on the same document, from any two states, add the same emissions
(same keys, same values, same number), and a run over a sequence of documents
adds for each document what the map function gives for that document alone. -/
theorem map_is_pure (name : String) (step : MapStep)
    (hs : (name, step) ∈ designDoc.mapSteps) :
    ∃ f : Doc → List Emission,
      (∀ doc s, (step doc s).results = s.results ++ f doc) ∧
      (∀ doc s, (step doc s).globals = s.globals) ∧
      (∀ doc s1 s2,
        (step doc s1).results.drop s1.results.length =
          (step doc s2).results.drop s2.results.length) ∧
      (∀ doc s, step doc (step doc s) = ⟨s.results ++ f doc ++ f doc, s.globals⟩) ∧
      (∀ docs s, runMaps step docs s = ⟨s.results ++ docs.flatMap f, s.globals⟩) ∧
      ∃ v, designDoc.view name = some v ∧ f = v.emissions := by
  obtain ⟨v, hv, hstep⟩ := step_eq name step hs
  refine ⟨v.emissions, fun doc s => by rw [hstep], fun doc s => by rw [hstep],
    fun doc s1 s2 => ?_, fun doc s => ?_, fun docs s => runMaps_of_frame step _ hstep docs s,
    v, hv, rfl⟩
  · rw [hstep, hstep]
    simp
  · rw [hstep, hstep]

/-- Witness for C11: the step of `by_id` on the scenario's Answer document, from
a fresh state and from a state with an earlier emission and a global variable:
both add the one emission for "a1" and keep the rest. -/
theorem map_is_pure_witness :
    ("by_id", designDoc.steps.by_id) ∈ designDoc.mapSteps ∧
    designDoc.steps.by_id scenarioAnswer freshState =
      ⟨[⟨Json.str "a1", Json.obj []⟩], []⟩ ∧
    designDoc.steps.by_id scenarioAnswer usedState =
      ⟨[⟨Json.str "earlier", Json.null⟩, ⟨Json.str "a1", Json.obj []⟩],
        [("counter", Json.num 7)]⟩ ∧
    (designDoc.steps.by_id scenarioAnswer freshState).results.drop freshState.results.length =
      (designDoc.steps.by_id scenarioAnswer usedState).results.drop usedState.results.length :=
  ⟨by simp [designDoc.mapSteps], by decide, by decide,
   (map_is_pure "by_id" designDoc.steps.by_id (by simp [designDoc.mapSteps])).elim
     fun _ h => h.2.2.1 scenarioAnswer freshState usedState⟩

/-- C12, as the claim states it, fails: view `by_contentid` emits the value of
`contentId` itself as the key, so its arity is not fixed at 1: the key of the
scenario's Answer document has one component, the key of an Answer document
whose `contentId` is a two-element array has two. -/
theorem fixed_arity_counterexample :
    ("by_contentid", by_contentid) ∈ designDoc.views ∧
    (by_contentid.emissions scenarioAnswer).map (fun e => (keyComponents e.key).length) = [1] ∧
    (by_contentid.emissions arrayContentAnswer).map (fun e => (keyComponents e.key).length)
      = [2] :=
  ⟨by simp [designDoc], by decide, by decide⟩

/-- C12, amended: for every document (also one with key fields missing or
null) every emission of `by_contentid_round_body_subject` has a key of exactly
6 top-level components, of `by_contentid_round_selectedchoiceindexes` and
`by_contentid_creatorid_round` exactly 3, of `by_contentid_creationtimestamp`
and `by_creatorid_roomid` exactly 2; and every emission of `by_id`,
`by_contentid` and `by_roomid` has as key the value of `_id`, `contentId` and
`roomId` itself, which is exactly 1 component whenever that field does not hold
an array. -/
theorem fixed_arity (doc : Doc) :
    (∀ e ∈ by_contentid_round_body_subject.emissions doc, (keyComponents e.key).length = 6) ∧
    (∀ e ∈ by_contentid_round_selectedchoiceindexes.emissions doc,
      (keyComponents e.key).length = 3) ∧
    (∀ e ∈ by_contentid_creatorid_round.emissions doc, (keyComponents e.key).length = 3) ∧
    (∀ e ∈ by_contentid_creationtimestamp.emissions doc, (keyComponents e.key).length = 2) ∧
    (∀ e ∈ by_creatorid_roomid.emissions doc, (keyComponents e.key).length = 2) ∧
    (∀ e ∈ by_id.emissions doc, e.key = (doc.get "_id").toJSON ∧
      (doc.isArrayField "_id" = false → (keyComponents e.key).length = 1)) ∧
    (∀ e ∈ by_contentid.emissions doc, e.key = (doc.get "contentId").toJSON ∧
      (doc.isArrayField "contentId" = false → (keyComponents e.key).length = 1)) ∧
    (∀ e ∈ by_roomid.emissions doc, e.key = (doc.get "roomId").toJSON ∧
      (doc.isArrayField "roomId" = false → (keyComponents e.key).length = 1)) := by
  have key_of : ∀ (name : String) (v : View), (name, v) ∈ designDoc.views →
      ∀ e ∈ v.emissions doc, e.key = viewKey doc name := by
    intro name v hv e he
    rw [emissions_eq name v hv doc] at he
    split at he
    · rw [List.mem_singleton.1 he]
    · simp at he
  refine ⟨fun e he => ?_, fun e he => ?_, fun e he => ?_, fun e he => ?_, fun e he => ?_,
    fun e he => ?_, fun e he => ?_, fun e he => ?_⟩
  · rw [key_of "by_contentid_round_body_subject" _ (by simp [designDoc]) e he]
    simp [viewKey, keyComponents]
  · rw [key_of "by_contentid_round_selectedchoiceindexes" _ (by simp [designDoc]) e he]
    simp [viewKey, keyComponents]
  · rw [key_of "by_contentid_creatorid_round" _ (by simp [designDoc]) e he]
    simp [viewKey, keyComponents]
  · rw [key_of "by_contentid_creationtimestamp" _ (by simp [designDoc]) e he]
    simp [viewKey, keyComponents]
  · rw [key_of "by_creatorid_roomid" _ (by simp [designDoc]) e he]
    simp [viewKey, keyComponents]
  · rw [key_of "by_id" _ (by simp [designDoc]) e he]
    exact ⟨rfl, fun h => keyComponents_toJSON_get doc "_id" h⟩
  · rw [key_of "by_contentid" _ (by simp [designDoc]) e he]
    exact ⟨rfl, fun h => keyComponents_toJSON_get doc "contentId" h⟩
  · rw [key_of "by_roomid" _ (by simp [designDoc]) e he]
    exact ⟨rfl, fun h => keyComponents_toJSON_get doc "roomId" h⟩

/-- Witness for C12, amended: an Answer document without any key field; its
`by_contentid_round_body_subject` key is six nulls, its `by_roomid` key is the
single component null. -/
theorem fixed_arity_witness :
    (⟨Json.arr [Json.null, Json.null, Json.null, Json.null, Json.null, Json.null],
        Json.obj []⟩ : Emission) ∈ by_contentid_round_body_subject.emissions bareAnswer ∧
    (keyComponents (⟨Json.arr [Json.null, Json.null, Json.null, Json.null, Json.null,
        Json.null], Json.obj []⟩ : Emission).key).length = 6 ∧
    (⟨Json.null, Json.obj []⟩ : Emission) ∈ by_roomid.emissions bareAnswer ∧
    bareAnswer.isArrayField "roomId" = false ∧
    (keyComponents (⟨Json.null, Json.obj []⟩ : Emission).key).length = 1 :=
  ⟨by decide, (fixed_arity bareAnswer).1 _ (by decide), by decide, by decide,
   ((fixed_arity bareAnswer).2.2.2.2.2.2.2 _ (by decide)).2 (by decide)⟩

/-- C13: for every list of documents with pairwise distinct `_id`, the rows of
view `by_id` correspond one to one to the documents of type "Answer": there is
one row for each such document, in the documents' order, with the document's
`_id` as key; the emitted keys are pairwise distinct; and a key is emitted
exactly when it is the `_id` of a document whose `type` is "Answer". -/
theorem by_id_one_to_one (docs : List Doc) (hid : (docs.map Doc.id).Nodup) :
    (viewRows by_id docs).map Row.key =
      (docs.filter fun d => d.hasType "Answer").map Doc.id ∧
    (viewRows by_id docs).length = (docs.filter fun d => d.hasType "Answer").length ∧
    ((viewRows by_id docs).map Row.key).Nodup ∧
    ∀ k, k ∈ (viewRows by_id docs).map Row.key ↔
      ∃ d ∈ docs, d.hasType "Answer" = true ∧ d.id = k := by
  have hrows := viewRows_eq "by_id" by_id (by simp [designDoc]) docs
  have hkeys : (viewRows by_id docs).map Row.key =
      (docs.filter fun d => d.hasType "Answer").map Doc.id := by
    rw [hrows]
    simp [List.map_map, Function.comp_def, viewKey, Doc.id]
  refine ⟨hkeys, by rw [hrows, List.length_map], ?_, fun k => ?_⟩
  · rw [hkeys]
    exact ((List.filter_sublist _).map Doc.id).nodup hid
  · rw [hkeys, List.mem_map]
    constructor
    · rintro ⟨d, hd, rfl⟩
      exact ⟨d, (List.mem_filter.1 hd).1, (List.mem_filter.1 hd).2, rfl⟩
    · rintro ⟨d, hd, hA, rfl⟩
      exact ⟨d, List.mem_filter.2 ⟨hd, hA⟩, rfl⟩

/-- Witness for C13: three Answer documents and one document of another type;
the keys of `by_id` are the three Answer ids. -/
theorem by_id_one_to_one_witness :
    (groupDocs.map Doc.id).Nodup ∧
    (viewRows by_id groupDocs).map Row.key =
      (groupDocs.filter fun d => d.hasType "Answer").map Doc.id ∧
    (viewRows by_id groupDocs).map Row.key = [Json.str "a1", Json.str "a2", Json.str "a3"] :=
  ⟨by decide, (by_id_one_to_one groupDocs (by decide)).1, by decide⟩

/-- C14: the emissions of each view depend only on the document's `type`, its
`_rev` and the fields that make up the view's key: two documents that agree on
these get identical emissions, whatever their other fields are; in particular
changing `body` changes no row of `by_roomid`, `by_creatorid_roomid` or
`by_contentid_creatorid_round`. -/
theorem emissions_depend_on_key_fields (name : String) (v : View)
    (hv : (name, v) ∈ designDoc.views) (d1 d2 : Doc)
    (ht : d1.get "type" = d2.get "type") (hr : d1.get "_rev" = d2.get "_rev")
    (hk : ∀ f ∈ keyFields name, d1.get f = d2.get f) :
    v.emissions d1 = v.emissions d2 ∧
    ∀ b : Json,
      by_roomid.emissions (d1.set "body" b) = by_roomid.emissions d1 ∧
      by_creatorid_roomid.emissions (d1.set "body" b) = by_creatorid_roomid.emissions d1 ∧
      by_contentid_creatorid_round.emissions (d1.set "body" b) =
        by_contentid_creatorid_round.emissions d1 := by
  have main : ∀ (n : String) (w : View), (n, w) ∈ designDoc.views → ∀ a c : Doc,
      a.get "type" = c.get "type" → a.get "_rev" = c.get "_rev" →
      (∀ f ∈ keyFields n, a.get f = c.get f) → w.emissions a = w.emissions c := by
    intro n w hw a c h1 h2 h3
    rw [emissions_eq n w hw a, emissions_eq n w hw c, hasType_congr a c "Answer" h1,
      revValue_congr a c h2, viewKey_congr n w hw a c h3]
  refine ⟨main name v hv d1 d2 ht hr hk, fun b => ⟨?_, ?_, ?_⟩⟩
  · refine main "by_roomid" _ (by simp [designDoc]) _ _
      (get_set_other d1 "body" "type" b (by decide))
      (get_set_other d1 "body" "_rev" b (by decide)) fun f hf => ?_
    simp only [keyFields, List.mem_singleton] at hf
    subst hf
    exact get_set_other d1 "body" "roomId" b (by decide)
  · refine main "by_creatorid_roomid" _ (by simp [designDoc]) _ _
      (get_set_other d1 "body" "type" b (by decide))
      (get_set_other d1 "body" "_rev" b (by decide)) fun f hf => ?_
    simp only [keyFields, List.mem_cons, List.mem_singleton, List.not_mem_nil, or_false] at hf
    rcases hf with e | e <;> subst e
    · exact get_set_other d1 "body" "creatorId" b (by decide)
    · exact get_set_other d1 "body" "roomId" b (by decide)
  · refine main "by_contentid_creatorid_round" _ (by simp [designDoc]) _ _
      (get_set_other d1 "body" "type" b (by decide))
      (get_set_other d1 "body" "_rev" b (by decide)) fun f hf => ?_
    simp only [keyFields, List.mem_cons, List.mem_singleton, List.not_mem_nil, or_false] at hf
    rcases hf with e | e | e <;> subst e
    · exact get_set_other d1 "body" "contentId" b (by decide)
    · exact get_set_other d1 "body" "creatorId" b (by decide)
    · exact get_set_other d1 "body" "round" b (by decide)

/-- Witness for C14: the scenario's Answer document and an Answer document
with another `_id`, `creatorId`, `round` and `body`; they agree on `type`, on
`_rev` (both have none) and on `contentId`, and get the same `by_contentid`
emission. -/
theorem emissions_depend_on_key_fields_witness :
    ("by_contentid", by_contentid) ∈ designDoc.views ∧
    scenarioAnswer.get "type" = bareContentAnswer.get "type" ∧
    scenarioAnswer.get "_rev" = bareContentAnswer.get "_rev" ∧
    (∀ f ∈ keyFields "by_contentid", scenarioAnswer.get f = bareContentAnswer.get f) ∧
    by_contentid.emissions scenarioAnswer = by_contentid.emissions bareContentAnswer ∧
    by_contentid.emissions scenarioAnswer = [⟨Json.str "Q1", Json.obj []⟩] :=
  ⟨by simp [designDoc], rfl, rfl,
   fun f hf => by
    simp only [keyFields, List.mem_singleton] at hf
    subst hf
    rfl,
   (emissions_depend_on_key_fields "by_contentid" by_contentid (by simp [designDoc])
      scenarioAnswer bareContentAnswer rfl rfl
      (fun f hf => by
        simp only [keyFields, List.mem_singleton] at hf
        subst hf
        rfl)).1,
   by decide⟩

/-- C15: for every view and every Answer document the leading key component
(the whole key for the scalar-key views) is the document field named first in
the view's name: `_id` for `by_id`, `contentId` for `by_contentid` and the four
composite `by_contentid_*` views, `roomId` for `by_roomid`, `creatorId` for
`by_creatorid_roomid`; so two Answer documents with the same `contentId` agree
on the first key component in every `by_contentid*` view. -/
theorem leading_key_component (doc : Doc) (hA : doc.hasType "Answer" = true) :
    ((by_id.emissions doc).map Emission.key = [(doc.get "_id").toJSON] ∧
     (by_contentid.emissions doc).map Emission.key = [(doc.get "contentId").toJSON] ∧
     (by_contentid_round_body_subject.emissions doc).map
        (fun e => (keyComponents e.key).head?) = [some (doc.get "contentId").toJSON] ∧
     (by_contentid_round_selectedchoiceindexes.emissions doc).map
        (fun e => (keyComponents e.key).head?) = [some (doc.get "contentId").toJSON] ∧
     (by_contentid_creationtimestamp.emissions doc).map
        (fun e => (keyComponents e.key).head?) = [some (doc.get "contentId").toJSON] ∧
     (by_contentid_creatorid_round.emissions doc).map
        (fun e => (keyComponents e.key).head?) = [some (doc.get "contentId").toJSON] ∧
     (by_roomid.emissions doc).map Emission.key = [(doc.get "roomId").toJSON] ∧
     (by_creatorid_roomid.emissions doc).map
        (fun e => (keyComponents e.key).head?) = [some (doc.get "creatorId").toJSON]) ∧
    ∀ other : Doc, other.hasType "Answer" = true →
      doc.get "contentId" = other.get "contentId" →
      (by_contentid.emissions doc).map Emission.key =
        (by_contentid.emissions other).map Emission.key ∧
      (by_contentid_round_body_subject.emissions doc).map
          (fun e => (keyComponents e.key).head?) =
        (by_contentid_round_body_subject.emissions other).map
          (fun e => (keyComponents e.key).head?) ∧
      (by_contentid_round_selectedchoiceindexes.emissions doc).map
          (fun e => (keyComponents e.key).head?) =
        (by_contentid_round_selectedchoiceindexes.emissions other).map
          (fun e => (keyComponents e.key).head?) ∧
      (by_contentid_creationtimestamp.emissions doc).map
          (fun e => (keyComponents e.key).head?) =
        (by_contentid_creationtimestamp.emissions other).map
          (fun e => (keyComponents e.key).head?) ∧
      (by_contentid_creatorid_round.emissions doc).map
          (fun e => (keyComponents e.key).head?) =
        (by_contentid_creatorid_round.emissions other).map
          (fun e => (keyComponents e.key).head?) := by
  have lead : ∀ d : Doc, d.hasType "Answer" = true →
      (by_id.emissions d).map Emission.key = [(d.get "_id").toJSON] ∧
      (by_contentid.emissions d).map Emission.key = [(d.get "contentId").toJSON] ∧
      (by_contentid_round_body_subject.emissions d).map
        (fun e => (keyComponents e.key).head?) = [some (d.get "contentId").toJSON] ∧
      (by_contentid_round_selectedchoiceindexes.emissions d).map
        (fun e => (keyComponents e.key).head?) = [some (d.get "contentId").toJSON] ∧
      (by_contentid_creationtimestamp.emissions d).map
        (fun e => (keyComponents e.key).head?) = [some (d.get "contentId").toJSON] ∧
      (by_contentid_creatorid_round.emissions d).map
        (fun e => (keyComponents e.key).head?) = [some (d.get "contentId").toJSON] ∧
      (by_roomid.emissions d).map Emission.key = [(d.get "roomId").toJSON] ∧
      (by_creatorid_roomid.emissions d).map
        (fun e => (keyComponents e.key).head?) = [some (d.get "creatorId").toJSON] := by
    intro d hd
    rw [emissions_eq "by_id" _ (by simp [designDoc]) d,
      emissions_eq "by_contentid" _ (by simp [designDoc]) d,
      emissions_eq "by_contentid_round_body_subject" _ (by simp [designDoc]) d,
      emissions_eq "by_contentid_round_selectedchoiceindexes" _ (by simp [designDoc]) d,
      emissions_eq "by_contentid_creationtimestamp" _ (by simp [designDoc]) d,
      emissions_eq "by_contentid_creatorid_round" _ (by simp [designDoc]) d,
      emissions_eq "by_roomid" _ (by simp [designDoc]) d,
      emissions_eq "by_creatorid_roomid" _ (by simp [designDoc]) d, hd]
    simp [viewKey, keyComponents]
  refine ⟨lead doc hA, fun other hO hc => ?_⟩
  obtain ⟨_, a2, a3, a4, a5, a6, _, _⟩ := lead doc hA
  obtain ⟨_, b2, b3, b4, b5, b6, _, _⟩ := lead other hO
  rw [a2, a3, a4, a5, a6, b2, b3, b4, b5, b6, hc]
  simp

/-- Witness for C15: the sample Answer document; its `by_creatorid_roomid` key
starts with its `creatorId` "u1", and it shares the `contentId` "Q1" with the
scenario's Answer document. -/
theorem leading_key_component_witness :
    sampleAnswer.hasType "Answer" = true ∧
    (by_creatorid_roomid.emissions sampleAnswer).map (fun e => (keyComponents e.key).head?)
      = [some (sampleAnswer.get "creatorId").toJSON] ∧
    (sampleAnswer.get "creatorId").toJSON = Json.str "u1" ∧
    scenarioAnswer.hasType "Answer" = true ∧
    sampleAnswer.get "contentId" = scenarioAnswer.get "contentId" ∧
    (by_contentid.emissions sampleAnswer).map Emission.key =
      (by_contentid.emissions scenarioAnswer).map Emission.key :=
  ⟨by decide, (leading_key_component sampleAnswer (by decide)).1.2.2.2.2.2.2.2, by decide,
   by decide, rfl,
   ((leading_key_component sampleAnswer (by decide)).2 scenarioAnswer (by decide) rfl).1⟩

end AnswerDesign
